import Mathlib

/-!
# Grades ingestion & aggregation engine: a verification development

A shallow embedding of the ingestion/aggregation core of the Grades
repository (`gradesync/api/core/ingest.py`, `ingest_optimized.py`,
`queries/summary.py`, `services/gradescope/sync.py`, `sync/service.py`,
`core/models.py`), with theorems settling the specification claims.

Conventions of the embedding:
* Python strings are `List Char` (`Str`); `str` injects Lean string
  literals.  Python's `str.lower` is modelled per character by
  `Char.toLower` (ASCII case folding; all strings the code compares are
  ASCII).  `str.strip` is modelled by trimming whitespace characters on
  both ends.
* SQL `NULL` / Python `None` is `Option.none`; nullable columns are
  `Option`-typed.
* Numeric score columns (`Numeric` in the SQLAlchemy models) are `Rat`.
* Python `float(s)` on a decimal literal is modelled by `parseFloat?`
  (sign, digits, optional fractional part; whitespace tolerated;
  anything else fails, modelling `ValueError`).
* A database session is the pair of a committed state and a pending
  working state; ORM writes act on the pending state, `commit` makes it
  durable, `rollback` discards it.  A function is transcribed as a pure
  state transformer between its commit points; DB statement executions
  that can raise (driver/integrity errors) are modelled by explicit
  Boolean failure oracles.
-/

namespace Grades

/-- Python strings, modelled as character lists. -/
abbrev Str := List Char

/-- Inject a Lean string literal into the model. -/
def str (s : String) : Str := s.data

/-- `s.lower()` (ASCII case folding per character). -/
def lowerStr (s : Str) : Str := s.map Char.toLower

/-- `s.strip()`: drop whitespace from both ends. -/
def stripStr (s : Str) : Str :=
  ((s.dropWhile Char.isWhitespace).reverse.dropWhile Char.isWhitespace).reverse

/-- Python's substring test `needle in hay`. -/
def containsSub (needle : Str) : Str → Bool
  | [] => needle.isEmpty
  | c :: t => needle.isPrefixOf (c :: t) || containsSub needle t

/-- Truthiness of an optional string (`None` and `""` are falsy). -/
def optTruthy (o : Option Str) : Bool :=
  match o with
  | none => false
  | some s => !s.isEmpty

/-- Value of a digit run (`int` of a nonempty all-digit string), 0 on `[]`. -/
def natOfDigits (s : Str) : Nat :=
  s.foldl (fun n c => 10 * n + (c.toNat - 48)) 0

/-- Unsigned part of Python `float(s)`: digits with at most one point,
at least one digit overall. -/
def parseUnsigned? (s : Str) : Option Rat :=
  match s.splitOn '.' with
  | [ip] => if !ip.isEmpty && ip.all Char.isDigit then some (natOfDigits ip : Rat) else none
  | [ip, fp] =>
      if ip.all Char.isDigit && fp.all Char.isDigit && !(ip.isEmpty && fp.isEmpty) then
        some ((natOfDigits ip : Rat) + (natOfDigits fp : Rat) / ((10 : Rat) ^ fp.length))
      else none
  | _ => none

/-- Python `float(s)` on a decimal literal: optional surrounding
whitespace, optional sign, digits with optional fractional part.
`none` models `ValueError`. -/
def parseFloat? (s : Str) : Option Rat :=
  match stripStr s with
  | '-' :: rest => (parseUnsigned? rest).map (fun q => -q)
  | '+' :: rest => parseUnsigned? rest
  | t => parseUnsigned? t

/-- `_num` from `core/ingest.py`: `None` and `""` give `None`; otherwise
`float(v)`, with a parse failure also giving `None`.  An empty or
unparsable field never becomes `0`. -/
def pyNum (v : Option Str) : Option Rat :=
  match v with
  | none => none
  | some s => if s.isEmpty then none else parseFloat? s

/-- `float(x or 0)` where `x = row.get(col, 0)`, as used by
`write_assignment_scores_optimized`: a missing or empty cell becomes
`0`; a nonempty cell is parsed, `none` modelling the uncaught
`ValueError`. -/
def floatOrZero (v : Option Str) : Option Rat :=
  match v with
  | none => some 0
  | some s => if s.isEmpty then some 0 else parseFloat? s

/-! ## Assignment categorizer (`_categorize_assignment`, `core/ingest.py`) -/

/-- One entry of a course's `assignment_categories` configuration. -/
structure CategoryRule where
  name : Str
  patterns : List Str
deriving DecidableEq

/-- Inner loop of `_categorize_assignment`: does any pattern of the rule
occur, case-insensitively, in the (already lowercased) normalized name? -/
def scanPatterns (nameLower : Str) : List Str → Bool
  | [] => false
  | p :: rest =>
      if containsSub (lowerStr p) nameLower then true else scanPatterns nameLower rest

/-- Outer loop of `_categorize_assignment`: first rule with a matching
pattern wins; `none` when no rule matches. -/
def scanRules (nameLower : Str) : List CategoryRule → Option Str
  | [] => none
  | r :: rest =>
      if scanPatterns nameLower r.patterns then some r.name else scanRules nameLower rest

/-- `_categorize_assignment(assignment_name, course_categories)`.
The name is normalized (underscores to spaces, stripped); a name starting
with "practice" (case-insensitive) is never categorized.  A falsy
(empty) `course_categories` list falls back to the legacy configuration
`legacyRules` (the parsed `assignment_categories.json`). -/
def categorize_assignment (assignmentName : Str) (courseCategories legacyRules : List CategoryRule) :
    Option Str :=
  let normalized := stripStr (assignmentName.map (fun c => if c = '_' then ' ' else c))
  if (str "practice").isPrefixOf (lowerStr normalized) then none
  else
    let categories := if courseCategories.isEmpty then legacyRules else courseCategories
    scanRules (lowerStr normalized) categories

/-! ## Relational model (`core/models.py`)

Only the columns the claims touch are carried; timestamps, JSON blobs
and audit columns are elided.  Note that the `students` table has **no**
course column: its one table-level constraint is
`UniqueConstraint('sid', 'email')`. -/

/-- A `courses` row. -/
structure CourseRow where
  id : Nat
  gradescope_course_id : Str
  name : Option Str
  number_of_students : Option Nat
deriving DecidableEq

/-- An `assignments` row (unique on `(assignment_id, course_id)` by usage). -/
structure AssignmentRow where
  id : Nat
  assignment_id : Str
  course_id : Nat
  title : Str
  category : Option Str
  max_points : Option Rat
deriving DecidableEq

/-- A `students` row: global, not owned by any course. -/
structure StudentRow where
  id : Nat
  sid : Str
  email : Option Str
  legal_name : Option Str
deriving DecidableEq

/-- A `submissions` row, unique on `(assignment_id, student_id)`
(`uq_assignment_student`).  Of the score columns we keep
`total_score`, `max_points` and `status`. -/
structure SubmissionRow where
  assignment_id : Nat
  student_id : Nat
  total_score : Option Rat
  max_points : Option Rat
  status : Str
deriving DecidableEq

/-- Key of a `summary_sheets` row
(`uq_summary_course_student_assignment`). -/
structure SummaryKey where
  course_id : Nat
  student_id : Nat
  assignment_id : Nat
deriving DecidableEq

/-- The database state: the five tables plus the autoincrement counter
feeding new primary keys. -/
structure DB where
  courses : List CourseRow
  assignments : List AssignmentRow
  students : List StudentRow
  submissions : List SubmissionRow
  summary : List (SummaryKey × Option Rat)
  nextId : Nat
deriving DecidableEq

/-- `session.query(Course).filter(Course.gradescope_course_id == gsid).first()`. -/
def findCourse (db : DB) (gsid : Str) : Option CourseRow :=
  db.courses.find? (fun c => decide (c.gradescope_course_id = gsid))

/-- Update every `courses` row with the given primary key. -/
def updateCourse (db : DB) (pk : Nat) (f : CourseRow → CourseRow) : DB :=
  { db with courses := db.courses.map (fun c => if c.id = pk then f c else c) }

/-- Update every `assignments` row with the given primary key. -/
def updateAssignment (db : DB) (pk : Nat) (f : AssignmentRow → AssignmentRow) : DB :=
  { db with assignments := db.assignments.map (fun a => if a.id = pk then f a else a) }

/-- Update every `students` row with the given primary key. -/
def updateStudent (db : DB) (pk : Nat) (f : StudentRow → StudentRow) : DB :=
  { db with students := db.students.map (fun s => if s.id = pk then f s else s) }

/-! ## CSV rows

`csv.DictReader` yields one mapping per line; the ingestion code reads a
fixed set of columns from it.  A `CsvRow` carries those cells:
`name` is the first positional column (always present), the rest are
`row.get(...)` results, `none` when the column is missing. -/

/-- The cells of one exported CSV row that the ingestion paths read. -/
structure CsvRow where
  name : Str
  sid : Option Str
  email : Option Str
  status : Option Str
  total_score : Option Str
  max_points : Option Str
deriving DecidableEq

/-- One ingestion call's arguments: course/assignment identity, the
parsed CSV rows, and the course configuration (display name and
category rules; the remaining metadata strings are elided). -/
structure IngestInput where
  courseGsId : Str
  assignmentExtId : Str
  assignmentName : Str
  rows : List CsvRow
  courseName : Option Str
  rules : List CategoryRule
  legacyRules : List CategoryRule
deriving DecidableEq

/-! ## Plain ingestion path (`write_assignment_scores_to_db`, `core/ingest.py`) -/

/-- Course resolution step: find the course by its Gradescope id,
refreshing `name` when a truthy new value differs, or create it
(`session.add` + `flush` assigns the next primary key).  Returns the
course's primary key. -/
def upsertCoursePlain (db : DB) (inp : IngestInput) : DB × Nat :=
  match findCourse db inp.courseGsId with
  | some c =>
      let db' :=
        if optTruthy inp.courseName && decide (c.name ≠ inp.courseName) then
          updateCourse db c.id (fun x => { x with name := inp.courseName })
        else db
      (db', c.id)
  | none =>
      let c : CourseRow :=
        { id := db.nextId, gradescope_course_id := inp.courseGsId,
          name := inp.courseName, number_of_students := none }
      ({ db with courses := db.courses ++ [c], nextId := db.nextId + 1 }, c.id)

/-- Assignment resolution step: find by `(assignment_id, course_id)`;
on hit the category is always refreshed, on miss a new row is created
with the computed category.  Returns the assignment's primary key. -/
def upsertAssignmentPlain (db : DB) (coursePk : Nat) (inp : IngestInput) : DB × Nat :=
  let category := categorize_assignment inp.assignmentName inp.rules inp.legacyRules
  match db.assignments.find?
      (fun a => decide (a.assignment_id = inp.assignmentExtId ∧ a.course_id = coursePk)) with
  | some a => (updateAssignment db a.id (fun x => { x with category := category }), a.id)
  | none =>
      let a : AssignmentRow :=
        { id := db.nextId, assignment_id := inp.assignmentExtId, course_id := coursePk,
          title := inp.assignmentName, category := category, max_points := none }
      ({ db with assignments := db.assignments ++ [a], nextId := db.nextId + 1 }, a.id)

/-- First-row handling: when the assignment's `max_points` is unset or
zero, take `float(row['Max Points'])` if present, positive and parsable. -/
def applyFirstRowMaxPoints (db : DB) (apk : Nat) (row : CsvRow) : DB :=
  match db.assignments.find? (fun a => decide (a.id = apk)) with
  | none => db
  | some a =>
      if a.max_points = none ∨ a.max_points = some 0 then
        let s := row.max_points.getD []
        if !s.isEmpty then
          match parseFloat? s with
          | some v =>
              if 0 < v then updateAssignment db apk (fun x => { x with max_points := some v })
              else db
          | none => db
        else db
      else db

/-- The body of the per-row loop of `write_assignment_scores_to_db`
(after the first-row `max_points` handling):
* a row without an `SID` (missing, empty, or whitespace) is skipped;
* a row with `Status == "Missing"` is skipped (default when the column
  is missing: `"Missing"`);
* the student is looked up **by `sid` alone** and either created
  (`Student(sid, email, legal_name)`) or its `email`/`legal_name`
  refreshed when the new truthy value differs;
* the submission for `(assignment, student)` is fully overwritten or
  created, with `_num` applied to `Total Score` (default `"0"`) and
  `Max Points` (default `"0"`). -/
def processRowPlain (db : DB) (apk : Nat) (row : CsvRow) : DB :=
  match row.sid with
  | none => db
  | some sidRaw =>
      if (stripStr sidRaw).isEmpty then db
      else
        let status := row.status.getD (str "Missing")
        if status = str "Missing" then db
        else
          let upd :=
            match db.students.find? (fun st => decide (st.sid = sidRaw)) with
            | some st =>
                let db1 :=
                  if optTruthy row.email && decide (st.email ≠ row.email) then
                    updateStudent db st.id (fun x => { x with email := row.email })
                  else db
                let db2 :=
                  if !row.name.isEmpty && decide (st.legal_name ≠ some row.name) then
                    updateStudent db1 st.id (fun x => { x with legal_name := some row.name })
                  else db1
                (db2, st.id)
            | none =>
                let st : StudentRow :=
                  { id := db.nextId, sid := sidRaw, email := row.email,
                    legal_name := some row.name }
                ({ db with students := db.students ++ [st], nextId := db.nextId + 1 }, st.id)
          let db' := upd.1
          let spk := upd.2
          let newSub : SubmissionRow :=
            { assignment_id := apk, student_id := spk,
              total_score := pyNum (some (row.total_score.getD (str "0"))),
              max_points := pyNum (some (row.max_points.getD (str "0"))),
              status := status }
          let overwritten :=
            db'.submissions.map
              (fun s => if s.assignment_id = apk ∧ s.student_id = spk then newSub else s)
          if db'.submissions.any
              (fun s => decide (s.assignment_id = apk ∧ s.student_id = spk)) then
            { db' with submissions := overwritten }
          else
            { db' with submissions := db'.submissions ++ [newSub] }

/-- One iteration of the CSV loop: the first iteration additionally runs
the `max_points` extraction before processing its row. -/
def plainLoopStep (apk : Nat) (st : DB × Bool) (row : CsvRow) : DB × Bool :=
  let db := if st.2 then st.1 else applyFirstRowMaxPoints st.1 apk row
  (processRowPlain db apk row, true)

/-- All session writes of `write_assignment_scores_to_db`, in order:
course upsert, assignment upsert, the per-row loop, and finally
`course.number_of_students = session.query(Student).count()` — the
**global** student count. -/
def plainWrites (db : DB) (inp : IngestInput) : DB :=
  let s1 := upsertCoursePlain db inp
  let s2 := upsertAssignmentPlain s1.1 s1.2 inp
  let looped := (inp.rows.foldl (plainLoopStep s2.2) (s2.1, false)).1
  let cnt := looped.students.length
  updateCourse looped s1.2
    (fun c => if c.number_of_students ≠ some cnt then { c with number_of_students := some cnt } else c)

/-- One element of `students_data`.  The dict carries a `course_id` key
although the `students` table declares no such column (and no
`uq_student_email_course` constraint): the batch INSERT built from
these dicts raises at execution against `core/models.py`'s schema. -/
structure OptStudentData where
  course_id : Nat
  email : Str
  sid : Str
  legal_name : Str
deriving DecidableEq

/-- One element of `submissions_data` (before the student id is
attached); scores are plain floats, never null. -/
structure OptSubData where
  email : Str
  total_score : Rat
  max_points : Rat
  status : Str
deriving DecidableEq

/-- The CSV loop of `write_assignment_scores_optimized`: rows with an
empty (stripped) `Email` or an already-seen email are skipped; every
kept row contributes a student dict and a submission dict, with
`float(row.get('Total Score', 0) or 0)` and the same for `Max Points`
(so an empty cell becomes `0.0`), and the running maximum of the
parsed `Max Points` is tracked.  There is **no** `Status`/`SID`
filtering.  `none` models an uncaught `ValueError` from `float`. -/
def optParseLoop (cpk : Nat) :
    List CsvRow → List Str → List OptStudentData → List OptSubData → Rat →
    Option (List OptStudentData × List OptSubData × Rat)
  | [], _, studs, subs, maxPts => some (studs, subs, maxPts)
  | row :: rest, seen, studs, subs, maxPts =>
      let email := stripStr (row.email.getD [])
      let sid := stripStr (row.sid.getD [])
      if email.isEmpty || seen.contains email then
        optParseLoop cpk rest seen studs subs maxPts
      else
        match floatOrZero row.max_points, floatOrZero row.total_score with
        | some mp, some ts =>
            let stud : OptStudentData :=
              { course_id := cpk, email := email, sid := sid, legal_name := row.name }
            let sub : OptSubData :=
              { email := email, total_score := ts, max_points := mp,
                status := row.status.getD [] }
            let maxPts' := if maxPts < mp then mp else maxPts
            optParseLoop cpk rest (seen ++ [email]) (studs ++ [stud]) (subs ++ [sub]) maxPts'
        | _, _ => none

/-- Collect `students_data`, `submissions_data` and
`assignment_max_points` from the CSV rows. -/
def optParseRows (cpk : Nat) (rows : List CsvRow) :
    Option (List OptStudentData × List OptSubData × Rat) :=
  optParseLoop cpk rows [] [] [] 0

/-- The `ON CONFLICT (assignment_id, student_id) DO UPDATE` statement of
`batch_upsert_submissions`, after the email → student-id resolution step
(a submission whose email resolves to no student id is dropped). -/
def optUpsertSubmissions (db : DB) (apk : Nat) (subs : List OptSubData) : DB :=
  subs.foldl
    (fun d sub =>
      match d.students.find? (fun st => decide (st.email = some sub.email)) with
      | none => d
      | some st =>
          let newRow : SubmissionRow :=
            { assignment_id := apk, student_id := st.id,
              total_score := some sub.total_score, max_points := some sub.max_points,
              status := sub.status }
          let overwritten :=
            d.submissions.map
              (fun s => if s.assignment_id = apk ∧ s.student_id = st.id then newRow else s)
          if d.submissions.any
              (fun s => decide (s.assignment_id = apk ∧ s.student_id = st.id)) then
            { d with submissions := overwritten }
          else
            { d with submissions := d.submissions ++ [newRow] })
    db

/-- The submission lookup resolution used both when saving and when
reading the summary: the first submission for `(assignment, student)`,
its `total_score` (which may itself be null). -/
def scoreOf (subs : List SubmissionRow) (apk spk : Nat) : Option Rat :=
  match subs.find? (fun s => decide (s.assignment_id = apk ∧ s.student_id = spk)) with
  | some s => s.total_score
  | none => none

/-- Upsert into the `summary_sheets` table on its unique key: the first
row with the key is updated in place, otherwise a new row is appended
(`session.add`). -/
def upsertSummary (k : SummaryKey) (v : Option Rat) :
    List (SummaryKey × Option Rat) → List (SummaryKey × Option Rat)
  | [] => [(k, v)]
  | (k', v') :: rest => if k' = k then (k, v) :: rest else (k', v') :: upsertSummary k v rest

/-- The write sequence of the student × assignment double loop of
`save_summary_sheet_to_db`: one `(key, score)` write per pair, the score
resolved from the submissions lookup. -/
def summaryWrites (cpk : Nat) (studentPks assignmentPks : List Nat)
    (subs : List SubmissionRow) : List (SummaryKey × Option Rat) :=
  studentPks.flatMap (fun spk =>
    assignmentPks.map (fun apk =>
      (⟨cpk, spk, apk⟩, scoreOf subs apk spk)))

/-- `save_summary_sheet_to_db`, given the course's primary key, the
student and assignment id lists of `summary_data` and the submissions
lookup: replay every write of the double loop onto the
`summary_sheets` table. -/
def save_summary_sheet_to_db (cpk : Nat) (studentPks assignmentPks : List Nat)
    (subs : List SubmissionRow) (table : List (SummaryKey × Option Rat)) :
    List (SummaryKey × Option Rat) :=
  (summaryWrites cpk studentPks assignmentPks subs).foldl
    (fun t kv => upsertSummary kv.1 kv.2 t) table

/-! ## Summary read model (`queries/summary.py`) and its ordering -/

/-- `extract_number(title)`: the first maximal digit run of the title as
an integer, `0` when the title has no digit. -/
def extract_number (title : Str) : Nat :=
  match title.dropWhile (fun c => !c.isDigit) with
  | [] => 0
  | c :: rest => natOfDigits (c :: rest.takeWhile Char.isDigit)

/-- The `category_order` dict of `get_summary_data_from_db`, in
insertion order. -/
def categoryOrderList : List (Str × Nat) :=
  [(str "lecture", 1), (str "quiz", 1), (str "midterm", 2), (str "postterm", 3),
   (str "posterm", 3), (str "project", 4), (str "lab", 5), (str "discussion", 6)]

/-- `get_category_priority(assignment)`: first key of `category_order`
occurring in the lowercased title wins; `99` when none does. -/
def get_category_priority (title : Str) : Nat :=
  match categoryOrderList.find? (fun kv => containsSub kv.1 (lowerStr title)) with
  | some kv => kv.2
  | none => 99

/-- The sort key relation of `get_summary_data_from_db` and
`get_summary_sheet_from_db`: lexicographic on
`(get_category_priority, extract_number)` — the title is **not** part
of the key. -/
def queryKeyLe (a b : Str) : Prop :=
  get_category_priority a < get_category_priority b ∨
    (get_category_priority a = get_category_priority b ∧ extract_number a ≤ extract_number b)

instance : DecidableRel queryKeyLe := fun a b => by unfold queryKeyLe; infer_instance

instance : IsTotal Str queryKeyLe := ⟨by intro a b; unfold queryKeyLe; omega⟩

instance : IsTrans Str queryKeyLe := ⟨by intro a b c; unfold queryKeyLe; omega⟩

/-- `categorize(title)` of `_export_summary_to_sheets`
(`services/gradescope/sync.py`): the if/elif chain mapping a title to a
category label. -/
def sheetsCategorize (title : Str) : Str :=
  let tl := lowerStr title
  if containsSub (str "lecture") tl || containsSub (str "quiz") tl then str "Quest"
  else if containsSub (str "midterm") tl then str "Midterm"
  else if containsSub (str "postterm") tl || containsSub (str "posterm") tl then str "Postterm"
  else if containsSub (str "project") tl then str "Projects"
  else if containsSub (str "lab") tl then str "Labs"
  else if containsSub (str "discussion") tl then str "Discussions"
  else str "Other"

/-- The `category_order` dict of `_export_summary_to_sheets`, read with
`.get(c, 99)`. -/
def sheetsCategoryOrder (c : Str) : Nat :=
  match [(str "Quest", 1), (str "Midterm", 2), (str "Postterm", 3), (str "Projects", 4),
      (str "Labs", 5), (str "Discussions", 6), (str "Other", 99)].find?
      (fun kv => decide (kv.1 = c)) with
  | some kv => kv.2
  | none => 99

/-- The sort key relation of `_export_summary_to_sheets`: lexicographic
on `(category_order[categorize(title)], extract_number(title), title)` —
here the title **is** the final tiebreak (Python compares strings
lexicographically by code point, as `≤` on `List Char` does). -/
def sheetsKeyLe (a b : Str) : Prop :=
  sheetsCategoryOrder (sheetsCategorize a) < sheetsCategoryOrder (sheetsCategorize b) ∨
    (sheetsCategoryOrder (sheetsCategorize a) = sheetsCategoryOrder (sheetsCategorize b) ∧
      (extract_number a < extract_number b ∨
        (extract_number a = extract_number b ∧ a ≤ b)))

instance : DecidableRel sheetsKeyLe := fun a b => by unfold sheetsKeyLe; infer_instance

instance : IsTotal Str sheetsKeyLe := by
  refine ⟨fun a b => ?_⟩
  unfold sheetsKeyLe
  rcases Nat.lt_trichotomy (sheetsCategoryOrder (sheetsCategorize a))
      (sheetsCategoryOrder (sheetsCategorize b)) with h | h | h
  · exact Or.inl (Or.inl h)
  · rcases Nat.lt_trichotomy (extract_number a) (extract_number b) with h2 | h2 | h2
    · exact Or.inl (Or.inr ⟨h, Or.inl h2⟩)
    · rcases le_total a b with h3 | h3
      · exact Or.inl (Or.inr ⟨h, Or.inr ⟨h2, h3⟩⟩)
      · exact Or.inr (Or.inr ⟨h.symm, Or.inr ⟨h2.symm, h3⟩⟩)
    · exact Or.inr (Or.inr ⟨h.symm, Or.inl h2⟩)
  · exact Or.inr (Or.inl h)

instance : IsTrans Str sheetsKeyLe := by
  refine ⟨fun a b c hab hbc => ?_⟩
  unfold sheetsKeyLe at hab hbc ⊢
  rcases hab with h | ⟨h1, h2 | ⟨h3, h4⟩⟩ <;> rcases hbc with h' | ⟨h1', h2' | ⟨h3', h4'⟩⟩ <;>
    first
      | omega
      | (refine Or.inr ⟨by omega, Or.inr ⟨by omega, le_trans h4 h4'⟩⟩)

/-- `sorted(assignments, key=lambda a: (priority, number))` as used by the
summary read queries.  Python's `sorted` is a stable sort agreeing with
any stable insertion sort under the same total preorder. -/
def sortAssignmentTitlesQuery (titles : List Str) : List Str :=
  List.insertionSort queryKeyLe titles

/-- `sorted(assignments, key=lambda a: (priority, number, title))` as
used by the Sheets summary export. -/
def sortAssignmentTitlesSheets (titles : List Str) : List Str :=
  List.insertionSort sheetsKeyLe titles

/-- One row of the summary read model: a student with a per-assignment
score map (`none` models the empty-string cell for "no submission"). -/
structure SummaryStudentRow where
  legal_name : Str
  email : Str
  scores : List (Str × Option Rat)
deriving DecidableEq

/-- The summary read model returned by `get_summary_data_from_db`. -/
structure SummaryData where
  assignments : List Str
  students : List SummaryStudentRow
deriving DecidableEq

/-- The student sort of `get_summary_data_from_db`:
`student_data.sort(key=lambda s: s.get("legal_name", "").lower())`. -/
def studentNameLe (a b : SummaryStudentRow) : Prop :=
  lowerStr a.legal_name ≤ lowerStr b.legal_name

instance : DecidableRel studentNameLe := fun a b => by unfold studentNameLe; infer_instance

/-- `get_summary_data_from_db(course_gradescope_id)`: resolve the course
(empty model when unknown); load and sort **this course's** assignments;
load **all** students (the query is unfiltered); load this course's
submissions; give every student one row whose score map has an entry per
assignment (`total_score` when a submission exists and its score is
non-null, otherwise the empty cell); sort rows by lowercased name. -/
def get_summary_data_from_db (db : DB) (courseGsId : Str) : SummaryData :=
  match findCourse db courseGsId with
  | none => { assignments := [], students := [] }
  | some course =>
      let assignments := db.assignments.filter (fun a => decide (a.course_id = course.id))
      let sortedTitles := sortAssignmentTitlesQuery (assignments.map (fun a => a.title))
      let subs := db.submissions.filter
        (fun s => assignments.any (fun a => decide (a.id = s.assignment_id)))
      let rows := db.students.map (fun st =>
        { legal_name := st.legal_name.getD [], email := st.email.getD [],
          scores := assignments.map (fun a => (a.title, scoreOf subs a.id st.id)) })
      { assignments := sortedTitles,
        students := List.insertionSort studentNameLe rows }

/-! ## Sync orchestrator (`GradeSyncService.sync_all`, `sync/service.py`) -/

/-- The result a step function returns: `_sync_gradescope` and its
siblings wrap their whole body in `try/except` and return a
`GradeSyncResult` either way, so a step never raises. -/
structure SyncStepResult where
  source : Str
  success : Bool
  message : Str
deriving DecidableEq

/-- The multi-source report `sync_all` assembles. -/
structure SyncReport where
  results : List SyncStepResult
  overall_success : Bool
deriving DecidableEq

/-- A step's underlying body: `Except.error` models the body raising
(authentication failure, empty assignment list, a `TypeError`, …);
`Except.ok` carries the success message. -/
def runSyncStep (name : Str) (body : Except Str Str) : SyncStepResult :=
  match body with
  | Except.ok m => { source := name, success := true, message := m }
  | Except.error e => { source := name, success := false, message := e }

/-- `sync_all`: run every enabled step in order (sources first, then the
summary-rebuild "database" step), appending each step's result to
`self.results`; finally report all results and
`overall_success = all(r.success for r in results)`.  Progress callbacks
are advisory and elided. -/
def sync_all (steps : List (Str × Except Str Str)) : SyncReport :=
  let results := steps.foldl (fun acc s => acc ++ [runSyncStep s.1 s.2]) []
  { results := results, overall_success := results.all (fun r => r.success) }

/-! # Theorems -/

/-! ## C8: first-match-wins categorization -/

theorem scanPatterns_eq_any (nl : Str) (ps : List Str) :
    scanPatterns nl ps = ps.any (fun p => containsSub (lowerStr p) nl) := by
  induction ps with
  | nil => rfl
  | cons p rest ih =>
      simp only [scanPatterns, List.any_cons]
      by_cases h : containsSub (lowerStr p) nl = true
      · simp [h]
      · simp only [Bool.not_eq_true] at h
        simp [h, ih]

theorem scanRules_eq_find? (nl : Str) (rs : List CategoryRule) :
    scanRules nl rs =
      Option.map CategoryRule.name (rs.find? (fun r => scanPatterns nl r.patterns)) := by
  induction rs with
  | nil => rfl
  | cons r rest ih =>
      simp only [scanRules, List.find?_cons]
      by_cases h : scanPatterns nl r.patterns = true
      · simp [h]
      · simp only [Bool.not_eq_true] at h
        simp [h, ih]

/-- C8. For an assignment name not starting with "practice" after
normalization and a non-empty rule list, `categorize` returns the name
of the **first** rule in list order having some pattern occurring as a
case-insensitive substring of the underscore-to-space-normalized name,
and `none` when no rule matches: ties go to list order, not to the
longest or best match. -/
theorem categorize_first_match_wins (name : Str) (rules legacy : List CategoryRule)
    (hne : rules ≠ [])
    (hpr : (str "practice").isPrefixOf
      (lowerStr (stripStr (name.map (fun c => if c = '_' then ' ' else c)))) = false) :
    categorize_assignment name rules legacy =
      Option.map CategoryRule.name
        (rules.find? (fun r => r.patterns.any
          (fun p => containsSub (lowerStr p)
            (lowerStr (stripStr (name.map (fun c => if c = '_' then ' ' else c))))))) := by
  have hempty : rules.isEmpty = false := by
    cases rules with
    | nil => exact absurd rfl hne
    | cons a l => rfl
  simp only [categorize_assignment, hpr, Bool.false_eq_true, if_false, hempty,
    scanRules_eq_find?, scanPatterns_eq_any]

/-- Demo rules of the spec's first-match example. -/
def c8Rules : List CategoryRule :=
  [{ name := str "Quest", patterns := [str "lecture"] },
   { name := str "Labs", patterns := [str "lab"] }]

/-- C8 witness: the spec's own example — `"Lecture Lab 1"` matches both
rules, and the first one (`"Quest"`) wins. -/
theorem categorize_first_match_wins_witness :
    c8Rules ≠ [] ∧
    (str "practice").isPrefixOf
      (lowerStr (stripStr ((str "Lecture Lab 1").map (fun c => if c = '_' then ' ' else c)))) = false ∧
    categorize_assignment (str "Lecture Lab 1") c8Rules [] = some (str "Quest") :=
  ⟨by decide, by decide,
    (categorize_first_match_wins (str "Lecture Lab 1") c8Rules [] (by decide) (by decide)).trans
      (by decide)⟩

/-! ## C3: empty numeric fields — null in the plain path, `0.0` in the
optimized path (code bug) -/

/-- The failing row for C3: a graded row whose `Total Score` cell is the
empty string. -/
def c3Row : CsvRow :=
  { name := str "Alice A", sid := some (str "123"), email := some (str "a@x.com"),
    status := some (str "Graded"), total_score := some (str ""),
    max_points := some (str "10") }

/-- Ingesting `c3Row` for a fresh course/assignment. -/
def c3Input : IngestInput :=
  { courseGsId := str "777", assignmentExtId := str "42", assignmentName := str "Lab 1",
    rows := [c3Row], courseName := none, rules := [], legacyRules := [] }

/-- An empty database (autoincrement counter at 1). -/
def c3EmptyDb : DB :=
  { courses := [], assignments := [], students := [], submissions := [], summary := [],
    nextId := 1 }

/-- C3. `_num("")` is `none` and the plain path stores a null
`total_score` for an empty `Total Score` cell — but the optimized path
(`write_assignment_scores_optimized`, the one the Gradescope sync
calls) converts the same cell with `float('' or 0)` and records a
`total_score` of `0.0` in the canonical submission record, contradicting
the never-a-default-of-zero rule. -/
theorem empty_total_score_zero_in_optimized_path :
    pyNum (some (str "")) = none ∧
    (plainWrites c3EmptyDb c3Input).submissions =
      [{ assignment_id := 2, student_id := 3, total_score := none,
         max_points := some 10, status := str "Graded" }] ∧
    optParseRows 1 [c3Row] =
      some ([{ course_id := 1, email := str "a@x.com", sid := str "123",
               legal_name := str "Alice A" }],
            [{ email := str "a@x.com", total_score := 0, max_points := 10,
               status := str "Graded" }], 10) := by
  refine ⟨rfl, by decide, by decide⟩

/-! ## C4: `Status="Missing"` rows — dropped by the plain path, stored
(and overwriting) in the optimized path (code bug) -/

/-- The failing row for C4: a `Missing` row for a student with a prior
graded submission. -/
def c4MissingRow : CsvRow :=
  { name := str "Bob B", sid := some (str "200"), email := some (str "b@x.com"),
    status := some (str "Missing"), total_score := some (str ""),
    max_points := some (str "10") }

/-- Re-ingesting the `Missing` row for the same course/assignment. -/
def c4Input : IngestInput :=
  { courseGsId := str "777", assignmentExtId := str "42", assignmentName := str "Lab 1",
    rows := [c4MissingRow], courseName := none, rules := [], legacyRules := [] }

/-- A database holding a prior non-missing submission (score 8) for
that `(assignment, student)`. -/
def c4PriorDb : DB :=
  { courses := [{ id := 1, gradescope_course_id := str "777", name := none,
                  number_of_students := some 1 }],
    assignments := [{ id := 2, assignment_id := str "42", course_id := 1,
                      title := str "Lab 1", category := none, max_points := some 10 }],
    students := [{ id := 3, sid := str "200", email := some (str "b@x.com"),
                   legal_name := some (str "Bob B") }],
    submissions := [{ assignment_id := 2, student_id := 3, total_score := some 8,
                      max_points := some 10, status := str "Graded" }],
    summary := [], nextId := 4 }

/-- C4. The plain path drops every row whose status is `"Missing"`
(also the default when the column is absent), so a `Missing` row never
produces or overwrites a submission there — but the optimized path has
no such filter: the same row yields a submission record with status
`"Missing"` and score `0.0`, and its `ON CONFLICT DO UPDATE` overwrites
the prior non-missing submission. -/
theorem missing_row_stored_by_optimized_path :
    (∀ (db : DB) (apk : Nat) (row : CsvRow),
      row.status = some (str "Missing") ∨ row.status = none →
      processRowPlain db apk row = db) ∧
    (plainWrites c4PriorDb c4Input).submissions = c4PriorDb.submissions ∧
    optParseRows 1 [c4MissingRow] =
      some ([{ course_id := 1, email := str "b@x.com", sid := str "200",
               legal_name := str "Bob B" }],
            [{ email := str "b@x.com", total_score := 0, max_points := 10,
               status := str "Missing" }], 10) ∧
    (optUpsertSubmissions c4PriorDb 2
        [{ email := str "b@x.com", total_score := 0, max_points := 10,
           status := str "Missing" }]).submissions =
      [{ assignment_id := 2, student_id := 3, total_score := some 0,
         max_points := some 10, status := str "Missing" }] := by
  refine ⟨?_, by decide, by decide, by decide⟩
  intro db apk row h
  rcases hs : row.sid with _ | sidRaw
  · simp [processRowPlain, hs]
  · rcases h with h | h <;> simp [processRowPlain, hs, h]

/-- C4 witness: the general `Missing`-row-skip clause applied to the
concrete prior database and row. -/
theorem missing_row_stored_by_optimized_path_witness :
    (c4MissingRow.status = some (str "Missing") ∨ c4MissingRow.status = none) ∧
    processRowPlain c4PriorDb 2 c4MissingRow = c4PriorDb :=
  ⟨Or.inl rfl, missing_row_stored_by_optimized_path.1 c4PriorDb 2 c4MissingRow (Or.inl rfl)⟩

/-! ## C5: the summary rebuild is idempotent -/

/-- `session.query(SummarySheet).filter(...).first()` on the unique key:
the first row with the key, if any. -/
def lookupSummary (k : SummaryKey) : List (SummaryKey × Option Rat) → Option (Option Rat)
  | [] => none
  | (k', v') :: rest => if k' = k then some v' else lookupSummary k rest

theorem lookupSummary_upsert_self (k : SummaryKey) (v : Option Rat)
    (t : List (SummaryKey × Option Rat)) :
    lookupSummary k (upsertSummary k v t) = some v := by
  induction t with
  | nil => simp [upsertSummary, lookupSummary]
  | cons p rest ih =>
      obtain ⟨k', v'⟩ := p
      by_cases h : k' = k
      · simp [upsertSummary, lookupSummary, h]
      · simp [upsertSummary, lookupSummary, h, ih]

theorem lookupSummary_upsert_ne (k k' : SummaryKey) (v : Option Rat)
    (t : List (SummaryKey × Option Rat)) (h : k' ≠ k) :
    lookupSummary k (upsertSummary k' v t) = lookupSummary k t := by
  induction t with
  | nil => simp [upsertSummary, lookupSummary, h]
  | cons p rest ih =>
      obtain ⟨k₀, v₀⟩ := p
      by_cases h0 : k₀ = k'
      · subst h0
        simp [upsertSummary, lookupSummary, h]
      · by_cases h1 : k₀ = k <;> simp [upsertSummary, lookupSummary, h0, h1, ih, Ne.symm h]

theorem upsertSummary_of_lookup_eq (k : SummaryKey) (v : Option Rat)
    (t : List (SummaryKey × Option Rat)) (h : lookupSummary k t = some v) :
    upsertSummary k v t = t := by
  induction t with
  | nil => simp [lookupSummary] at h
  | cons p rest ih =>
      obtain ⟨k', v'⟩ := p
      by_cases h0 : k' = k
      · subst h0
        simp [lookupSummary] at h
        simp [upsertSummary, h]
      · simp [lookupSummary, h0] at h
        simp [upsertSummary, h0, ih h]

/-- Folding the writes over the table with `upsertSummary`. -/
def applySummaryWrites (ws : List (SummaryKey × Option Rat))
    (t : List (SummaryKey × Option Rat)) : List (SummaryKey × Option Rat) :=
  ws.foldl (fun tab kv => upsertSummary kv.1 kv.2 tab) t

theorem save_summary_eq_applyWrites (cpk : Nat) (studentPks assignmentPks : List Nat)
    (subs : List SubmissionRow) (t : List (SummaryKey × Option Rat)) :
    save_summary_sheet_to_db cpk studentPks assignmentPks subs t =
      applySummaryWrites (summaryWrites cpk studentPks assignmentPks subs) t := rfl

theorem applySummaryWrites_cons (p : SummaryKey × Option Rat)
    (ws t : List (SummaryKey × Option Rat)) :
    applySummaryWrites (p :: ws) t = applySummaryWrites ws (upsertSummary p.1 p.2 t) := rfl

theorem lookup_applyWrites_not_mem (k : SummaryKey) :
    ∀ (ws t : List (SummaryKey × Option Rat)), (∀ p ∈ ws, p.1 ≠ k) →
      lookupSummary k (applySummaryWrites ws t) = lookupSummary k t
  | [], t, _ => rfl
  | p :: rest, t, h => by
      rw [applySummaryWrites_cons,
        lookup_applyWrites_not_mem k rest _ (fun q hq => h q (List.mem_cons_of_mem p hq)),
        lookupSummary_upsert_ne k p.1 p.2 t (h p (List.mem_cons_self p rest))]

theorem lookup_applyWrites_mem (g : SummaryKey → Option Rat) (k : SummaryKey) :
    ∀ (ws t : List (SummaryKey × Option Rat)),
      (∀ p ∈ ws, p.2 = g p.1) → (∃ p ∈ ws, p.1 = k) →
      lookupSummary k (applySummaryWrites ws t) = some (g k)
  | [], _, _, hk => by simp at hk
  | p :: rest, t, hg, hk => by
      rw [applySummaryWrites_cons]
      by_cases hrest : ∃ q ∈ rest, q.1 = k
      · exact lookup_applyWrites_mem g k rest _
          (fun q hq => hg q (List.mem_cons_of_mem p hq)) hrest
      · have hpk : p.1 = k := by
          rcases hk with ⟨q, hq, hqk⟩
          rcases List.mem_cons.mp hq with h1 | h1
          · rw [← h1]; exact hqk
          · exact absurd ⟨q, h1, hqk⟩ hrest
        have hnot : ∀ q ∈ rest, q.1 ≠ k := fun q hq hqk => hrest ⟨q, hq, hqk⟩
        rw [lookup_applyWrites_not_mem k rest _ hnot, ← hpk, lookupSummary_upsert_self,
          hg p (List.mem_cons_self p rest)]

theorem applyWrites_of_all_present :
    ∀ (ws t : List (SummaryKey × Option Rat)),
      (∀ p ∈ ws, lookupSummary p.1 t = some p.2) → applySummaryWrites ws t = t
  | [], _, _ => rfl
  | p :: rest, t, h => by
      rw [applySummaryWrites_cons,
        upsertSummary_of_lookup_eq p.1 p.2 t (h p (List.mem_cons_self p rest))]
      exact applyWrites_of_all_present rest t (fun q hq => h q (List.mem_cons_of_mem p hq))

theorem summaryWrites_val (cpk : Nat) (studentPks assignmentPks : List Nat)
    (subs : List SubmissionRow) (p : SummaryKey × Option Rat)
    (hp : p ∈ summaryWrites cpk studentPks assignmentPks subs) :
    p.2 = scoreOf subs p.1.assignment_id p.1.student_id := by
  simp only [summaryWrites, List.mem_flatMap, List.mem_map] at hp
  rcases hp with ⟨spk, _, apk, _, hpe⟩
  rw [← hpe]

/-- C5. The summary rebuild is idempotent: replaying the full write
sequence of `save_summary_sheet_to_db` a second time, with the same
submissions lookup, leaves the `summary_sheets` table unchanged —
each write upserts on the unique `(course, student, assignment)` key
instead of appending, so the second rebuild finds every row already
holding the value it would write. -/
theorem summary_rebuild_idempotent (cpk : Nat) (studentPks assignmentPks : List Nat)
    (subs : List SubmissionRow) (t : List (SummaryKey × Option Rat)) :
    save_summary_sheet_to_db cpk studentPks assignmentPks subs
        (save_summary_sheet_to_db cpk studentPks assignmentPks subs t) =
      save_summary_sheet_to_db cpk studentPks assignmentPks subs t := by
  rw [save_summary_eq_applyWrites, save_summary_eq_applyWrites]
  apply applyWrites_of_all_present
  intro p hp
  rw [summaryWrites_val cpk studentPks assignmentPks subs p hp]
  exact lookup_applyWrites_mem (fun k => scoreOf subs k.assignment_id k.student_id) p.1
    (summaryWrites cpk studentPks assignmentPks subs) t
    (fun q hq => summaryWrites_val cpk studentPks assignmentPks subs q hq)
    ⟨p, hp, rfl⟩

/-! ## C6: the summary ordering's composite key -/

/-- The ordering the spec claims for the summary projection: category
priority first, then the first embedded integer of the title (0 when
none), then the **title** as tiebreak. -/
def specCompositeKeyLe (a b : Str) : Prop :=
  get_category_priority a < get_category_priority b ∨
    (get_category_priority a = get_category_priority b ∧
      (extract_number a < extract_number b ∨
        (extract_number a = extract_number b ∧ a ≤ b)))

instance : DecidableRel specCompositeKeyLe := fun a b => by
  unfold specCompositeKeyLe; infer_instance

/-- Sorting by the spec's claimed composite key. -/
def sortAssignmentTitlesSpec (titles : List Str) : List Str :=
  List.insertionSort specCompositeKeyLe titles

/-- C6 counterexample.  `"Lab 2b"` and `"Lab 2a"` tie on category
priority (5) and embedded number (2).  The summary read queries sort
only by `(priority, number)` — Python's stable sort keeps the stored
order, `["Lab 2b", "Lab 2a"]` — whereas the composite key claimed by
the spec (with the title tiebreak) yields `["Lab 2a", "Lab 2b"]`. -/
theorem summary_query_sort_lacks_title_tiebreak :
    sortAssignmentTitlesQuery [str "Lab 2b", str "Lab 2a"] = [str "Lab 2b", str "Lab 2a"] ∧
    sortAssignmentTitlesSpec [str "Lab 2b", str "Lab 2a"] = [str "Lab 2a", str "Lab 2b"] ∧
    sortAssignmentTitlesQuery [str "Lab 2b", str "Lab 2a"] ≠
      sortAssignmentTitlesSpec [str "Lab 2b", str "Lab 2a"] := by
  refine ⟨by decide, by decide, by decide⟩

instance : IsTotal Str specCompositeKeyLe := by
  refine ⟨fun a b => ?_⟩
  unfold specCompositeKeyLe
  rcases Nat.lt_trichotomy (get_category_priority a) (get_category_priority b) with h | h | h
  · exact Or.inl (Or.inl h)
  · rcases Nat.lt_trichotomy (extract_number a) (extract_number b) with h2 | h2 | h2
    · exact Or.inl (Or.inr ⟨h, Or.inl h2⟩)
    · rcases le_total a b with h3 | h3
      · exact Or.inl (Or.inr ⟨h, Or.inr ⟨h2, h3⟩⟩)
      · exact Or.inr (Or.inr ⟨h.symm, Or.inr ⟨h2.symm, h3⟩⟩)
    · exact Or.inr (Or.inr ⟨h.symm, Or.inl h2⟩)
  · exact Or.inr (Or.inl h)

instance : IsTrans Str specCompositeKeyLe := by
  refine ⟨fun a b c hab hbc => ?_⟩
  unfold specCompositeKeyLe at hab hbc ⊢
  rcases hab with h | ⟨h1, h2 | ⟨h3, h4⟩⟩ <;> rcases hbc with h' | ⟨h1', h2' | ⟨h3', h4'⟩⟩ <;>
    first
      | omega
      | (refine Or.inr ⟨by omega, Or.inr ⟨by omega, le_trans h4 h4'⟩⟩)

/-- The priority functions of the two sort sites agree: scanning the
`category_order` dict keys inside the title (read queries) matches
taking the `category_order` entry of the if/elif `categorize` label
(Sheets export). -/
theorem sheets_priority_eq_query_priority (t : Str) :
    sheetsCategoryOrder (sheetsCategorize t) = get_category_priority t := by
  unfold sheetsCategorize get_category_priority categoryOrderList
  by_cases h1 : containsSub (str "lecture") (lowerStr t) = true <;>
    by_cases h2 : containsSub (str "quiz") (lowerStr t) = true <;>
      by_cases h3 : containsSub (str "midterm") (lowerStr t) = true <;>
        by_cases h4 : containsSub (str "postterm") (lowerStr t) = true <;>
          by_cases h5 : containsSub (str "posterm") (lowerStr t) = true <;>
            by_cases h6 : containsSub (str "project") (lowerStr t) = true <;>
              by_cases h7 : containsSub (str "lab") (lowerStr t) = true <;>
                by_cases h8 : containsSub (str "discussion") (lowerStr t) = true <;>
                  simp [h1, h2, h3, h4, h5, h6, h7, h8, List.find?, sheetsCategoryOrder] <;>
                    decide

/-- C6 amended.  Both sort sites order by category priority (the fixed
quiz/lecture-first … unranked-last small ordering) then first embedded
integer, no-number titles sorting as 0; only the Sheets-export sort
(`_export_summary_to_sheets`) adds the title as final tiebreak, while
the summary read queries (`get_summary_data_from_db`,
`get_summary_sheet_from_db`) stop at `(priority, number)` and leave
ties in stored order.  Each sort permutes its input and is sorted with
respect to its own key. -/
theorem summary_sort_keys (l : List Str) :
    (sortAssignmentTitlesQuery l).Perm l ∧
    List.Sorted queryKeyLe (sortAssignmentTitlesQuery l) ∧
    (sortAssignmentTitlesSheets l).Perm l ∧
    List.Sorted specCompositeKeyLe (sortAssignmentTitlesSheets l) := by
  refine ⟨List.perm_insertionSort queryKeyLe l, List.sorted_insertionSort queryKeyLe l,
    List.perm_insertionSort sheetsKeyLe l, ?_⟩
  have h := List.sorted_insertionSort sheetsKeyLe l
  apply List.Pairwise.imp ?_ h
  intro a b hab
  unfold sheetsKeyLe at hab
  unfold specCompositeKeyLe
  rw [sheets_priority_eq_query_priority a, sheets_priority_eq_query_priority b] at hab
  exact hab

/-! ## C7: per-source failure isolation in the orchestrator -/

theorem sync_all_results_eq_map (steps : List (Str × Except Str Str)) (acc : List SyncStepResult) :
    steps.foldl (fun acc s => acc ++ [runSyncStep s.1 s.2]) acc =
      acc ++ steps.map (fun s => runSyncStep s.1 s.2) := by
  induction steps generalizing acc with
  | nil => simp
  | cons s rest ih => simp [List.foldl_cons, ih]

/-- C7. `sync_all` never loses a step: the report has exactly one entry
per enabled step, in order; and a step whose body raises contributes
exactly one failed entry for its source while every later step (the
remaining sources and the final summary-rebuild "database" step) still
runs and contributes its own result.  The invocation returns this
structured report — by construction it cannot propagate the step's
exception. -/
theorem sync_all_isolates_source_failures :
    (∀ steps : List (Str × Except Str Str), (sync_all steps).results.length = steps.length) ∧
    (∀ (pre post : List (Str × Except Str Str)) (name e : Str),
      sync_all (pre ++ (name, Except.error e) :: post) =
        { results := (sync_all pre).results ++
            { source := name, success := false, message := e } :: (sync_all post).results,
          overall_success := false }) := by
  constructor
  · intro steps
    simp [sync_all, sync_all_results_eq_map]
  · intro pre post name e
    unfold sync_all
    rw [sync_all_results_eq_map, sync_all_results_eq_map, sync_all_results_eq_map]
    simp [runSyncStep, List.all_append]

/-! ## C1: student identity is the sid, not (course, email) -/

/-- An empty database for the C1 run. -/
def c1EmptyDb : DB :=
  { courses := [], assignments := [], students := [], submissions := [], summary := [],
    nextId := 1 }

/-- Two graded rows of one export sharing the same email under the same
course but with different sids. -/
def c1Row1 : CsvRow :=
  { name := str "A One", sid := some (str "1"), email := some (str "a@x.com"),
    status := some (str "Graded"), total_score := some (str "5"),
    max_points := some (str "10") }

/-- Second row: same email `a@x.com`, different sid. -/
def c1Row2 : CsvRow :=
  { name := str "A Two", sid := some (str "2"), email := some (str "a@x.com"),
    status := some (str "Graded"), total_score := some (str "6"),
    max_points := some (str "10") }

/-- First ingestion run: both rows, course `"700"`. -/
def c1Input1 : IngestInput :=
  { courseGsId := str "700", assignmentExtId := str "1", assignmentName := str "Lab 1",
    rows := [c1Row1, c1Row2], courseName := none, rules := [], legacyRules := [] }

/-- Second ingestion run for the same course: sid `"1"` reappears with a
brand-new email. -/
def c1Input2 : IngestInput :=
  { courseGsId := str "700", assignmentExtId := str "1", assignmentName := str "Lab 1",
    rows := [{ name := str "A One", sid := some (str "1"), email := some (str "b@x.com"),
               status := some (str "Graded"), total_score := some (str "7"),
               max_points := some (str "10") }],
    courseName := none, rules := [], legacyRules := [] }

/-- State after the first run. -/
def c1Db1 : DB := plainWrites c1EmptyDb c1Input1

/-- State after the second run. -/
def c1Db2 : DB := plainWrites c1Db1 c1Input2

/-- C1 counterexample.  After the first run the course holds **two**
student rows with the same email — the second record's
`(course, email)` identity already existed, yet a new row was created
instead of a refresh, so `(course_id, email)` is not kept unique.
After the second run, a record whose `(course, email)` identity was new
(`b@x.com`) did **not** create a row: it was matched purely by sid
and overwrote the email of the existing sid-"1" student — sid is the
sole identity key. -/
theorem students_not_keyed_by_course_email :
    c1Db1.students.map (fun s => (s.sid, s.email)) =
      [(str "1", some (str "a@x.com")), (str "2", some (str "a@x.com"))] ∧
    c1Db2.students.map (fun s => (s.sid, s.email)) =
      [(str "1", some (str "b@x.com")), (str "2", some (str "a@x.com"))] := by
  refine ⟨by decide, by decide⟩

/-- C1 amended.  In the per-row student upsert of the plain ingestion
path, a row whose (nonblank) sid already exists refreshes that student
in place — the sid list is unchanged, whatever the email — and a row
with an unseen sid appends a new student row, even when its email
already belongs to another student.  (The schema backs this with the
`(sid, email)` unique constraint; students carry no course column.) -/
theorem student_upsert_keyed_on_sid (db : DB) (apk : Nat) (row : CsvRow) (sidRaw : Str)
    (hsid : row.sid = some sidRaw)
    (hstrip : (stripStr sidRaw).isEmpty = false)
    (hstatus : row.status.getD (str "Missing") ≠ str "Missing") :
    ((∃ st ∈ db.students, st.sid = sidRaw) →
      (processRowPlain db apk row).students.map (fun s => s.sid) =
        db.students.map (fun s => s.sid)) ∧
    ((∀ st ∈ db.students, st.sid ≠ sidRaw) →
      (processRowPlain db apk row).students.map (fun s => s.sid) =
        db.students.map (fun s => s.sid) ++ [sidRaw]) := by
  rcases hf : db.students.find? (fun st => decide (st.sid = sidRaw)) with _ | st'
  · constructor
    · intro ⟨st, hmem, hst⟩
      rw [List.find?_eq_none] at hf
      exact absurd (by simp [hst]) (hf st hmem)
    · intro _
      simp only [processRowPlain, hsid, hstrip, Bool.false_eq_true, if_false,
        if_neg hstatus, hf]
      split <;> simp
  · have hsid' : st'.sid = sidRaw := by
      have := List.find?_some hf
      simpa using this
    constructor
    · intro _
      simp only [processRowPlain, hsid, hstrip, Bool.false_eq_true, if_false,
        if_neg hstatus, hf, updateStudent]
      split <;> split <;> split <;>
        first
          | rfl
          | (simp only [List.map_map]
             apply List.map_congr_left
             intro a _
             by_cases h : a.id = st'.id <;> simp [h])
    · intro hnone
      exact absurd hsid' (hnone st' (List.mem_of_find?_eq_some hf))

/-- Database for the C1 witness: one existing student with sid "9". -/
def c1WitDb : DB :=
  { courses := [], assignments := [],
    students := [{ id := 1, sid := str "9", email := some (str "z@x.com"),
                   legal_name := some (str "Z") }],
    submissions := [], summary := [], nextId := 2 }

/-- Row for the C1 witness: known sid, new email. -/
def c1WitRow : CsvRow :=
  { name := str "Z New", sid := some (str "9"), email := some (str "w@x.com"),
    status := some (str "Graded"), total_score := some (str "1"),
    max_points := some (str "2") }

/-- C1 witness: processing a row whose sid already exists leaves the sid
column unchanged — the student was matched by sid and refreshed in
place. -/
theorem student_upsert_keyed_on_sid_witness :
    c1WitRow.sid = some (str "9") ∧
    (stripStr (str "9")).isEmpty = false ∧
    c1WitRow.status.getD (str "Missing") ≠ str "Missing" ∧
    (∃ st ∈ c1WitDb.students, st.sid = str "9") ∧
    (processRowPlain c1WitDb 7 c1WitRow).students.map (fun s => s.sid) =
      c1WitDb.students.map (fun s => s.sid) :=
  ⟨rfl, by decide, by decide, by decide,
    (student_upsert_keyed_on_sid c1WitDb 7 c1WitRow (str "9") rfl (by decide) (by decide)).1
      (by decide)⟩

/-! ## C2: failure atomicity of one assignment's ingestion -/

/-- Database with one pre-existing student unrelated to the course about
to be ingested. -/
def c9Db : DB :=
  { courses := [], assignments := [],
    students := [{ id := 1, sid := str "1", email := some (str "a@x.com"),
                   legal_name := some (str "A") }],
    submissions := [], summary := [], nextId := 2 }

/-- One-row export for a brand-new course `"900"`. -/
def c9Input : IngestInput :=
  { courseGsId := str "900", assignmentExtId := str "2", assignmentName := str "Lab 2",
    rows := [{ name := str "B", sid := some (str "2"), email := some (str "b@x.com"),
               status := some (str "Graded"), total_score := some (str "3"),
               max_points := some (str "4") }],
    courseName := none, rules := [], legacyRules := [] }

/-- Follows the spec's words, "the distinct count of Students in that
course": the schema gives students no course column, so a course's
students are those holding a submission for one of the course's
assignments. -/
def specDistinctStudentsOfCourse (db : DB) (cpk : Nat) : Nat :=
  (db.students.filter (fun st =>
    db.submissions.any (fun sub =>
      decide (sub.student_id = st.id) &&
        db.assignments.any (fun a =>
          decide (a.id = sub.assignment_id ∧ a.course_id = cpk))))).length

/-- C9 counterexample.  Ingesting a one-row export for the fresh course
`"900"` into a database already holding one unrelated student persists
`number_of_students = 2` — the size of the whole `students` table —
while only one student is linked to that course. -/
theorem course_count_not_scoped_to_course :
    (plainWrites c9Db c9Input).courses.map
        (fun c => (c.gradescope_course_id, c.number_of_students)) = [(str "900", some 2)] ∧
    specDistinctStudentsOfCourse (plainWrites c9Db c9Input) 2 = 1 ∧
    ¬ ((2 : Nat) = 1) := by
  refine ⟨by decide, by decide, by decide⟩

theorem findCourse_updateCourse (db : DB) (pk : Nat) (f : CourseRow → CourseRow)
    (hf : ∀ c, (f c).gradescope_course_id = c.gradescope_course_id) (gsid : Str) :
    findCourse (updateCourse db pk f) gsid =
      Option.map (fun c => if c.id = pk then f c else c) (findCourse db gsid) := by
  unfold findCourse updateCourse
  have hpg : ((fun c => decide (c.gradescope_course_id = gsid)) ∘
      (fun c => if c.id = pk then f c else c)) =
        (fun c : CourseRow => decide (c.gradescope_course_id = gsid)) := by
    funext c
    by_cases h : c.id = pk <;> simp [h, hf]
  rw [List.find?_map, hpg]

theorem upsertCoursePlain_find (db : DB) (inp : IngestInput) :
    ∃ c, findCourse (upsertCoursePlain db inp).1 inp.courseGsId = some c ∧
      c.id = (upsertCoursePlain db inp).2 := by
  unfold upsertCoursePlain
  rcases hfc : findCourse db inp.courseGsId with _ | c0
  · refine ⟨⟨db.nextId, inp.courseGsId, inp.courseName, none⟩, ?_, rfl⟩
    unfold findCourse at hfc ⊢
    rw [List.find?_append, hfc]
    simp
  · simp only [hfc]
    split
    · refine ⟨{ c0 with name := inp.courseName }, ?_, rfl⟩
      rw [findCourse_updateCourse db c0.id
          (fun x => { x with name := inp.courseName }) (fun c => rfl) inp.courseGsId, hfc]
      simp
    · exact ⟨c0, hfc, rfl⟩

theorem upsertAssignmentPlain_courses (db : DB) (cpk : Nat) (inp : IngestInput) :
    (upsertAssignmentPlain db cpk inp).1.courses = db.courses := by
  unfold upsertAssignmentPlain
  rcases h : db.assignments.find?
      (fun a => decide (a.assignment_id = inp.assignmentExtId ∧ a.course_id = cpk)) with _ | a
  all_goals simp only [h]
  all_goals try rfl

theorem applyFirstRowMaxPoints_courses (db : DB) (apk : Nat) (row : CsvRow) :
    (applyFirstRowMaxPoints db apk row).courses = db.courses := by
  unfold applyFirstRowMaxPoints
  rcases h : db.assignments.find? (fun a => decide (a.id = apk)) with _ | a
  · simp [h]
  · simp only [h]
    repeat' split
    all_goals rfl

theorem processRowPlain_courses (db : DB) (apk : Nat) (row : CsvRow) :
    (processRowPlain db apk row).courses = db.courses := by
  unfold processRowPlain
  rcases hs : row.sid with _ | sidRaw
  · simp [hs]
  · simp only [hs]
    by_cases h1 : (stripStr sidRaw).isEmpty = true
    · simp [h1]
    · simp only [Bool.not_eq_true] at h1
      by_cases h2 : row.status.getD (str "Missing") = str "Missing"
      · simp [h1, h2]
      · simp only [h1, h2, Bool.false_eq_true, if_false]
        rcases hf : db.students.find? (fun st => decide (st.sid = sidRaw)) with _ | st <;>
          simp only [hf]
        · split <;> rfl
        · repeat' split
          all_goals rfl

theorem plainLoop_courses (apk : Nat) :
    ∀ (rows : List CsvRow) (st : DB × Bool),
      ((rows.foldl (plainLoopStep apk) st).1).courses = st.1.courses
  | [], _ => rfl
  | row :: rest, st => by
      rw [List.foldl_cons, plainLoop_courses apk rest _]
      rcases st with ⟨db, flag⟩
      cases flag <;>
        simp [plainLoopStep, processRowPlain_courses, applyFirstRowMaxPoints_courses]

/-- C9 amended.  At the end of every plain ingestion run the persisted
`number_of_students` of the ingested course equals the length of the
**entire** `students` table (`session.query(Student).count()` is
unfiltered — students carry no course), not a per-course count and not
the batch size. -/
theorem course_count_is_global_table_count (db : DB) (inp : IngestInput) :
    ∃ c, findCourse (plainWrites db inp) inp.courseGsId = some c ∧
      c.number_of_students = some ((plainWrites db inp).students.length) := by
  obtain ⟨c₁, hc₁, hid⟩ := upsertCoursePlain_find db inp
  unfold plainWrites
  set s1 := upsertCoursePlain db inp with hs1
  set s2 := upsertAssignmentPlain s1.1 s1.2 inp with hs2
  set looped := (inp.rows.foldl (plainLoopStep s2.2) (s2.1, false)).1 with hloop
  set cnt := looped.students.length with hcnt
  have hcourses : looped.courses = s1.1.courses := by
    rw [hloop]
    rw [plainLoop_courses s2.2 inp.rows (s2.1, false)]
    rw [hs2]
    exact upsertAssignmentPlain_courses s1.1 s1.2 inp
  have hfindlooped : findCourse looped inp.courseGsId = some c₁ := by
    unfold findCourse at hc₁ ⊢
    rw [hcourses]
    exact hc₁
  refine ⟨if c₁.number_of_students ≠ some cnt then { c₁ with number_of_students := some cnt }
    else c₁, ?_, ?_⟩
  · rw [findCourse_updateCourse looped s1.2 _ (fun c => by split <;> rfl) inp.courseGsId,
      hfindlooped]
    simp [hid]
  · show _ = some ((updateCourse looped s1.2 _).students.length)
    have hstud : (updateCourse looped s1.2
        (fun c => if c.number_of_students ≠ some cnt then { c with number_of_students := some cnt }
          else c)).students.length = cnt := rfl
    rw [hstud]
    split
    · rfl
    · rename_i h
      rw [not_ne_iff] at h
      exact h

/-! ## C10: the summary read model lists every student in the store -/

/-- C10.  The student list of `get_summary_data_from_db` is built from
an **unfiltered** `Student` query: every student row in the database —
whatever course its submissions belong to — yields a row of the
requested course's summary; and a student none of whose submissions
belong to the requested course's assignments gets the empty cell for
every one of that course's assignments. -/
theorem summary_lists_all_students (db : DB) (courseGsId : Str) (course : CourseRow)
    (st : StudentRow) (hc : findCourse db courseGsId = some course) (hs : st ∈ db.students) :
    ∃ row ∈ (get_summary_data_from_db db courseGsId).students,
      row.email = st.email.getD [] ∧ row.legal_name = st.legal_name.getD [] ∧
      ((∀ sub ∈ db.submissions, sub.student_id = st.id →
          ¬ ∃ a ∈ db.assignments, a.id = sub.assignment_id ∧ a.course_id = course.id) →
        ∀ p ∈ row.scores, p.2 = none) := by
  unfold get_summary_data_from_db
  rw [hc]
  set assignments := db.assignments.filter (fun a => decide (a.course_id = course.id))
    with hassign
  set subs := db.submissions.filter
    (fun s => assignments.any (fun a => decide (a.id = s.assignment_id))) with hsubs
  refine ⟨{ legal_name := st.legal_name.getD [],
            email := st.email.getD [],
            scores := assignments.map (fun a => (a.title, scoreOf subs a.id st.id)) },
    ?_, rfl, rfl, ?_⟩
  · apply ((List.perm_insertionSort studentNameLe _).mem_iff).mpr
    exact List.mem_map_of_mem _ hs
  · intro hnone p hp
    rcases List.mem_map.mp hp with ⟨a, ha, hpa⟩
    rw [← hpa]
    show scoreOf subs a.id st.id = none
    unfold scoreOf
    rcases hfind : subs.find?
        (fun s => decide (s.assignment_id = a.id ∧ s.student_id = st.id)) with _ | s
    · rw [hfind]
    · exfalso
      have hsmem := List.mem_of_find?_eq_some hfind
      have hprop := List.find?_some hfind
      simp only [decide_eq_true_eq] at hprop
      rw [hsubs, List.mem_filter] at hsmem
      have hamem := ha
      rw [hassign, List.mem_filter] at hamem
      have hacourse : a.course_id = course.id := by
        have := hamem.2
        simpa using this
      exact hnone s hsmem.1 hprop.2 ⟨a, hamem.1, hprop.1.symm, hacourse⟩

/-- Two courses for the C10 witness. -/
def c10Course : CourseRow :=
  { id := 1, gradescope_course_id := str "c1", name := none, number_of_students := none }

/-- The student of the C10 witness, whose only submission belongs to the
**other** course. -/
def c10Student : StudentRow :=
  { id := 5, sid := str "5", email := some (str "s@x.com"), legal_name := some (str "S") }

/-- C10 witness database: course `c1` with assignment 3, course `c2`
with assignment 4, and one student submitting only to course `c2`. -/
def c10Db : DB :=
  { courses := [c10Course,
      { id := 2, gradescope_course_id := str "c2", name := none, number_of_students := none }],
    assignments := [{ id := 3, assignment_id := str "a1", course_id := 1, title := str "Lab 1",
                      category := none, max_points := some 10 },
                    { id := 4, assignment_id := str "a2", course_id := 2, title := str "Quiz 1",
                      category := none, max_points := some 5 }],
    students := [c10Student],
    submissions := [{ assignment_id := 4, student_id := 5, total_score := some 5,
                      max_points := some 5, status := str "Graded" }],
    summary := [], nextId := 6 }

/-- C10 witness: the student ingested under course `c2` appears in
course `c1`'s summary. -/
theorem summary_lists_all_students_witness :
    findCourse c10Db (str "c1") = some c10Course ∧
    c10Student ∈ c10Db.students ∧
    (∃ row ∈ (get_summary_data_from_db c10Db (str "c1")).students,
      row.email = c10Student.email.getD [] ∧
      row.legal_name = c10Student.legal_name.getD [] ∧
      ((∀ sub ∈ c10Db.submissions, sub.student_id = c10Student.id →
          ¬ ∃ a ∈ c10Db.assignments, a.id = sub.assignment_id ∧ a.course_id = c10Course.id) →
        ∀ p ∈ row.scores, p.2 = none)) :=
  ⟨by decide, by decide,
    summary_lists_all_students c10Db (str "c1") c10Course c10Student (by decide) (by decide)⟩

end Grades
